import Mathlib

/-! Verification of the countdown library (`src/utils/countdownUtils.ts` and
`src/presentation/hooks/useCountdown.ts`): the time-remaining calculator,
the three formatters, and the reactive update loop, shallowly embedded.

Instants are epoch milliseconds, modelled as `Int` (JS `Date.getTime()`
returns an integer number of milliseconds for a valid date).  The remaining
quantities produced by the calculator are provably non-negative integers in
the source (`Math.max(0, ...)` then `Math.floor` of non-negative values), so
they are modelled as `Nat`.  JS `number` values that can be `NaN` (the
invalid-date path) are modelled separately as `Option Int` with `none` for
`NaN`.
-/

namespace Countdown

/-- JS `Number.prototype.toString()` digit character: `'0' + d`. -/
def digitChar (d : Nat) : Char := Char.ofNat (48 + d)

/-- Fuel-driven base-10 digit expansion (most significant first); the fuel
`n + 1` in `natToStr` is always sufficient since the value shrinks by a
factor of 10 each step. -/
def natDigitsAux : Nat → Nat → List Char
  | 0, _ => []
  | fuel + 1, n =>
    if n < 10 then [digitChar n]
    else natDigitsAux fuel (n / 10) ++ [digitChar (n % 10)]

/-- JS `Number.prototype.toString()` for the non-negative integers appearing
in the formatters. -/
def natToStr (n : Nat) : String := ⟨natDigitsAux (n + 1) n⟩

/-- JS `String.prototype.padStart(n, c)`: left-pad with `c` up to length `n`;
a string already at least `n` long is returned unchanged.  (`s.data.length`
is `s.length`: the strings involved are ASCII.) -/
def padStart (s : String) (n : Nat) (c : Char) : String :=
  if n ≤ s.data.length then s else ⟨List.replicate (n - s.data.length) c ++ s.data⟩

/-- JS `String.prototype.replace(pat, rep)` with a plain-string pattern:
replaces the first occurrence of `pat` only. -/
def replaceFirstAux (pat rep : List Char) : List Char → List Char
  | [] => []
  | ch :: rest =>
    if (ch :: rest).take pat.length = pat then rep ++ (ch :: rest).drop pat.length
    else ch :: replaceFirstAux pat rep rest

/-- JS `s.replace(pat, rep)` (first occurrence, plain-string pattern). -/
def replaceFirst (s pat rep : String) : String :=
  ⟨replaceFirstAux pat.data rep.data s.data⟩

/-- Structure `TimeRemaining` from `countdownUtils.ts`. -/
structure TimeRemaining where
  hours : Nat
  minutes : Nat
  seconds : Nat
  totalSeconds : Nat
  isExpired : Bool
deriving DecidableEq

/-- Structure `CountdownFormatOptions` from `countdownUtils.ts`, with the defaults the
destructuring patterns apply (`showSecondsThreshold = 5`, `separator = " "`,
`showZeros = false`). -/
structure CountdownFormatOptions where
  showSecondsThreshold : Nat := 5
  separator : String := " "
  showZeros : Bool := false
  timezone : Option String := none

/-- The `keys` record of `TranslationOptions`: per-message key overrides. -/
structure TranslationKeys where
  availableNow : Option String := none
  oneHour : Option String := none
  hours : Option String := none
  oneMinute : Option String := none
  minutes : Option String := none
  oneSecond : Option String := none
  seconds : Option String := none

/-- Merged `CountdownFormatOptions & TranslationOptions`, the options record of
`formatCountdown`.  The translation function `t` receives the key and, when
the source passes a `{ count }` params object, that count (`some n`). -/
structure CountdownOptions where
  showSecondsThreshold : Nat := 5
  separator : String := " "
  showZeros : Bool := false
  timezone : Option String := none
  t : Option (String → Option Nat → String) := none
  keys : TranslationKeys := {}

/-- Options record of `formatCountdownCompact`:
`CountdownFormatOptions & { showHours?, showSeconds? }` with defaults
`showHours = true`, `showSeconds = true`. -/
structure CompactOptions where
  showSecondsThreshold : Nat := 5
  separator : String := " "
  showZeros : Bool := false
  timezone : Option String := none
  showHours : Bool := true
  showSeconds : Bool := true

/-- Function `calculateTimeRemaining` from `countdownUtils.ts` for a valid target.
`target` and `now` are the two `getTime()` readings (epoch ms).  The source
computes `difference = Math.max(0, target - now)`, then
`totalSeconds = Math.floor(difference / 1000)` and the fixed decomposition;
`Math.floor` of the non-negative quotient is `Nat` division after `toNat`
(lossless since `difference` is clamped non-negative).  The `tz` parameter
mirrors the `options.timezone` field, which the body never reads. -/
def calculateTimeRemaining (target now : Int) (tz : Option String) : TimeRemaining :=
  let difference : Int := max 0 (target - now)
  let totalSeconds : Nat := difference.toNat / 1000
  { hours := totalSeconds / 3600
    minutes := totalSeconds % 3600 / 60
    seconds := totalSeconds % 60
    totalSeconds := totalSeconds
    isExpired := decide (totalSeconds ≤ 0) }

/-- The `availableNow` sentinel text: `keys?.availableNow || 'Available now'`,
then `t ? t(key) : key` (the source repeats this snippet in the expired
branch and in the empty-parts fallback of `formatCountdown`). -/
def availableNowText (t : Option (String → Option Nat → String))
    (keys : TranslationKeys) : String :=
  let key := keys.availableNow.getD ("Available now")
  match t with
  | some f => f key none
  | none => key

/-- A singular part: `keys?.k || dflt`, then `t ? t(key) : key`. -/
def translateSingular (t : Option (String → Option Nat → String))
    (keyOverride : Option String) (dflt : String) : String :=
  let key := keyOverride.getD dflt
  match t with
  | some f => f key none
  | none => key

/-- A plural part: `keys?.k || dflt`, then
`t ? t(key, \x7b count \x7d) : key.replace('\x7b\x7bcount\x7d\x7d', count.toString())`. -/
def translateCount (t : Option (String → Option Nat → String))
    (keyOverride : Option String) (dflt : String) (count : Nat) : String :=
  let key := keyOverride.getD dflt
  match t with
  | some f => f key (some count)
  | none => replaceFirst key ("\x7b\x7bcount\x7d\x7d") (natToStr count)

/-- Body of `formatCountdown` after the destructuring
`const { hours, minutes, seconds, totalSeconds, isExpired } = calculateTimeRemaining(...)`.
The `parts.push` sequence under nested conditionals is modelled as a
concatenation of sub-lists, one per block, each reproducing the block's
conditional structure. -/
def formatCountdownCore (r : TimeRemaining) (opts : CountdownOptions) : String :=
  if r.isExpired then availableNowText opts.t opts.keys
  else
    let hoursParts : List String :=
      if 0 < r.hours ∨ opts.showZeros then
        if r.hours = 1 then [translateSingular opts.t opts.keys.oneHour ("1 hour")]
        else if 0 < r.hours then
          [translateCount opts.t opts.keys.hours ("\x7b\x7bcount\x7d\x7d hours") r.hours]
        else []
      else []
    let minutesParts : List String :=
      if 0 < r.minutes ∨ (opts.showZeros ∧ r.hours = 0) then
        if r.minutes = 1 then [translateSingular opts.t opts.keys.oneMinute ("1 minute")]
        else if 0 < r.minutes then
          [translateCount opts.t opts.keys.minutes ("\x7b\x7bcount\x7d\x7d minutes") r.minutes]
        else []
      else []
    let secondsParts : List String :=
      if r.hours = 0 ∧ r.minutes < opts.showSecondsThreshold then
        if 0 < r.seconds ∨ opts.showZeros then
          if r.seconds = 1 then [translateSingular opts.t opts.keys.oneSecond ("1 second")]
          else if 0 < r.seconds then
            [translateCount opts.t opts.keys.seconds ("\x7b\x7bcount\x7d\x7d seconds") r.seconds]
          else []
        else []
      else []
    let parts := hoursParts ++ minutesParts ++ secondsParts
    if parts.isEmpty then availableNowText opts.t opts.keys
    else String.intercalate opts.separator parts

/-- Function `formatCountdown` from `countdownUtils.ts`: calculate, then format. -/
def formatCountdown (target now : Int) (opts : CountdownOptions) : String :=
  formatCountdownCore (calculateTimeRemaining target now opts.timezone) opts

/-- Body of `formatCountdownShort` after the destructuring of the calculator
result. -/
def formatCountdownShortCore (r : TimeRemaining) (opts : CountdownFormatOptions) : String :=
  if r.isExpired then "0m"
  else
    let parts : List String :=
      (if 0 < r.hours then [natToStr r.hours ++ "h"] else []) ++
      (if 0 < r.minutes then [natToStr r.minutes ++ "m"] else []) ++
      (if r.hours = 0 ∧ r.minutes < opts.showSecondsThreshold then
        if 0 < r.seconds then [natToStr r.seconds ++ "s"] else []
      else [])
    if parts.isEmpty then "0m" else String.intercalate opts.separator parts

/-- Function `formatCountdownShort` from `countdownUtils.ts`: calculate, then format. -/
def formatCountdownShort (target now : Int) (opts : CountdownFormatOptions) : String :=
  formatCountdownShortCore (calculateTimeRemaining target now opts.timezone) opts

/-- Body of `formatCountdownCompact` after the destructuring of the
calculator result. -/
def formatCountdownCompactCore (r : TimeRemaining) (opts : CompactOptions) : String :=
  if r.isExpired then (if opts.showHours then "0:00:00" else "0:00")
  else if opts.showHours then
    let h := padStart (natToStr r.hours) 2 '0'
    let m := padStart (natToStr r.minutes) 2 '0'
    if opts.showSeconds then h ++ ":" ++ m ++ ":" ++ padStart (natToStr r.seconds) 2 '0'
    else h ++ ":" ++ m
  else
    let totalMinutes := r.hours * 60 + r.minutes
    let m := padStart (natToStr totalMinutes) 2 '0'
    if opts.showSeconds then m ++ ":" ++ padStart (natToStr r.seconds) 2 '0'
    else m

/-- Function `formatCountdownCompact` from `countdownUtils.ts`.  Note the source calls
`calculateTimeRemaining(targetDate)` without threading `options.timezone`,
hence the literal `none` here. -/
def formatCountdownCompact (target now : Int) (opts : CompactOptions) : String :=
  formatCountdownCompactCore (calculateTimeRemaining target now none) opts

/-- The zero/expired sentinel `TimeRemaining` the hook publishes when no
target is set. -/
def nullTargetSentinel : TimeRemaining :=
  { hours := 0, minutes := 0, seconds := 0, totalSeconds := 0, isExpired := true }

/-- The mutable state `updateCountdown` in `useCountdown.ts` operates on:
the current target (with the timezone option it is resolved under), the last
published `TimeRemaining`, and — to observe callback firing — a counter of
`onExpire` invocations. -/
structure CountdownTickState where
  currentTarget : Option Int
  timezone : Option String
  timeRemaining : TimeRemaining
  expireCalls : Nat

/-- One tick: the `updateCountdown` callback of `useCountdown.ts`.  With no
target it publishes the sentinel; otherwise it recomputes from the current
target, publishes the result and, when it is expired and an `onExpire`
callback is supplied (`hasOnExpire`), invokes the callback (counted). -/
def updateCountdown (hasOnExpire : Bool) (s : CountdownTickState) (now : Int) :
    CountdownTickState :=
  match s.currentTarget with
  | none => { s with timeRemaining := nullTargetSentinel }
  | some target =>
    let remaining := calculateTimeRemaining target now s.timezone
    { s with
        timeRemaining := remaining
        expireCalls := s.expireCalls + (if remaining.isExpired && hasOnExpire then 1 else 0) }

/-- The interval loop of the active countdown: `updateCountdown` runs once at
each tick instant in order. -/
def runTicks (hasOnExpire : Bool) (s : CountdownTickState) (times : List Int) :
    CountdownTickState :=
  times.foldl (updateCountdown hasOnExpire) s

/-- The values `useCountdown` returns to the consumer that depend on the
current target: the published `TimeRemaining` and the three derived
strings. -/
structure UseCountdownView where
  timeRemaining : TimeRemaining
  formatted : String
  short : String
  compact : String
deriving DecidableEq

/-- The target-dependent part of `useCountdown`'s return value.  With a
`null`/`undefined` target (`none`) the hook publishes the fixed sentinel and
the three strings are `''` (the formatters are not called); otherwise the
three formatters are called with the spread format options (which contain no
`showHours`/`showSeconds`, so compact uses its defaults). -/
def useCountdownView (currentTarget : Option Int) (now : Int)
    (opts : CountdownOptions) : UseCountdownView :=
  { timeRemaining :=
      match currentTarget with
      | none => nullTargetSentinel
      | some t => calculateTimeRemaining t now opts.timezone
    formatted :=
      match currentTarget with
      | none => ""
      | some t => formatCountdown t now opts
    short :=
      match currentTarget with
      | none => ""
      | some t =>
        formatCountdownShort t now
          { showSecondsThreshold := opts.showSecondsThreshold
            separator := opts.separator
            showZeros := opts.showZeros
            timezone := opts.timezone }
    compact :=
      match currentTarget with
      | none => ""
      | some t =>
        formatCountdownCompact t now
          { showSecondsThreshold := opts.showSecondsThreshold
            separator := opts.separator
            showZeros := opts.showZeros
            timezone := opts.timezone } }

/-- A JS `number` that may be `NaN` (`none`), for the invalid-date path. -/
structure JSTimeRemaining where
  hours : Option Int
  minutes : Option Int
  seconds : Option Int
  totalSeconds : Option Int
  isExpired : Bool
deriving DecidableEq

/-- JS subtraction; `NaN` propagates. -/
def jsSub : Option Int → Option Int → Option Int
  | some a, some b => some (a - b)
  | _, _ => none

/-- JS `Math.max(0, x)`; `Math.max` with a `NaN` argument returns `NaN`. -/
def jsMax0 : Option Int → Option Int
  | some a => some (max 0 a)
  | none => none

/-- JS `Math.floor(x / d)` for positive integer `d` (floor division);
`NaN` propagates. -/
def jsFloorDiv : Option Int → Int → Option Int
  | some a, d => some (Int.fdiv a d)
  | none, _ => none

/-- JS `x % d`; `NaN` propagates.  (On the non-negative values reachable
here, JS remainder agrees with `Int.emod`.) -/
def jsMod : Option Int → Int → Option Int
  | some a, d => some (Int.emod a d)
  | none, _ => none

/-- JS `x <= 0`: comparisons with `NaN` are `false`. -/
def jsLe0 : Option Int → Bool
  | some a => decide (a ≤ 0)
  | none => false

/-- Function `calculateTimeRemaining` on the `NaN`-capable number model: `targetMs`
is `new Date(targetDate).getTime()`, which is `NaN` (`none`) for an
unparseable date string. -/
def calculateTimeRemainingJS (targetMs : Option Int) (nowMs : Int) : JSTimeRemaining :=
  let difference := jsMax0 (jsSub targetMs (some nowMs))
  let totalSeconds := jsFloorDiv difference 1000
  { hours := jsFloorDiv totalSeconds 3600
    minutes := jsFloorDiv (jsMod totalSeconds 3600) 60
    seconds := jsMod totalSeconds 60
    totalSeconds := totalSeconds
    isExpired := jsLe0 totalSeconds }

/-- The language of the regular expression `^\d+:\d{2}(:\d{2})?$`: one or
more digits, a colon, exactly two digits, and optionally a colon with two
more digits.  Since a digit is never a colon, a string is in this language
exactly when it decomposes as below. -/
def matchesCompactRegex (s : String) : Prop :=
  (∃ a b : List Char, s.data = a ++ ':' :: b ∧ a ≠ [] ∧ a.all Char.isDigit = true ∧
    b.length = 2 ∧ b.all Char.isDigit = true) ∨
  (∃ a b c : List Char, s.data = a ++ ':' :: (b ++ ':' :: c) ∧ a ≠ [] ∧
    a.all Char.isDigit = true ∧ b.length = 2 ∧ b.all Char.isDigit = true ∧
    c.length = 2 ∧ c.all Char.isDigit = true)

-- Basic lemmas about the calculator.

theorem calculateTimeRemaining_totalSeconds (target now : Int) (tz : Option String) :
    (calculateTimeRemaining target now tz).totalSeconds = (max 0 (target - now)).toNat / 1000 :=
  rfl

theorem calculateTimeRemaining_isExpired (target now : Int) (tz : Option String) :
    (calculateTimeRemaining target now tz).isExpired =
      decide ((calculateTimeRemaining target now tz).totalSeconds ≤ 0) :=
  rfl

/-- C1: whenever the target is not after `now`, the clamped difference is
zero, so `totalSeconds = 0` and `isExpired = true`; and in general
`isExpired` holds exactly when `totalSeconds = 0` (for the non-negative
`totalSeconds`, `<= 0` is `= 0`), never before. -/
theorem calculateTimeRemaining_expired_iff (target now : Int) (tz : Option String) :
    (target ≤ now →
      (calculateTimeRemaining target now tz).totalSeconds = 0 ∧
      (calculateTimeRemaining target now tz).isExpired = true) ∧
    ((calculateTimeRemaining target now tz).isExpired = true ↔
      (calculateTimeRemaining target now tz).totalSeconds = 0) := by
  constructor
  · intro h
    have h0 : (calculateTimeRemaining target now tz).totalSeconds = 0 := by
      rw [calculateTimeRemaining_totalSeconds]
      omega
    refine ⟨h0, ?_⟩
    rw [calculateTimeRemaining_isExpired, h0]
    decide
  · rw [calculateTimeRemaining_isExpired]
    simp

/-- Witness for `calculateTimeRemaining_expired_iff` at the concrete instant
pair `target = 0`, `now = 5000`. -/
theorem calculateTimeRemaining_expired_iff_witness :
    (calculateTimeRemaining 0 5000 none).totalSeconds = 0 ∧
    (calculateTimeRemaining 0 5000 none).isExpired = true :=
  (calculateTimeRemaining_expired_iff 0 5000 none).1 (by decide)

/-- C2: the decomposition invariant
`hours * 3600 + minutes * 60 + seconds = totalSeconds`, with `minutes` and
`seconds` in `[0, 59]` (`hours` and `totalSeconds` are non-negative by the
`Nat` type, mirroring the clamped non-negative source values). -/
theorem calculateTimeRemaining_decomposition (target now : Int) (tz : Option String) :
    (calculateTimeRemaining target now tz).hours * 3600 +
      (calculateTimeRemaining target now tz).minutes * 60 +
      (calculateTimeRemaining target now tz).seconds =
      (calculateTimeRemaining target now tz).totalSeconds ∧
    (calculateTimeRemaining target now tz).minutes ≤ 59 ∧
    (calculateTimeRemaining target now tz).seconds ≤ 59 ∧
    (calculateTimeRemaining target now tz).hours =
      (calculateTimeRemaining target now tz).totalSeconds / 3600 ∧
    (calculateTimeRemaining target now tz).minutes =
      (calculateTimeRemaining target now tz).totalSeconds % 3600 / 60 ∧
    (calculateTimeRemaining target now tz).seconds =
      (calculateTimeRemaining target now tz).totalSeconds % 60 := by
  simp only [calculateTimeRemaining]
  refine ⟨by omega, by omega, by omega, trivial, trivial, trivial⟩

/-- C9: the timezone option is never consumed by the calculation, so any two
timezone values (including absent) give identical results at the same pair
of instants. -/
theorem calculateTimeRemaining_timezone_independent (target now : Int)
    (tz₁ tz₂ : Option String) :
    calculateTimeRemaining target now tz₁ = calculateTimeRemaining target now tz₂ :=
  rfl

theorem isExpired_of_le (target now : Int) (tz : Option String) (h : target ≤ now) :
    (calculateTimeRemaining target now tz).isExpired = true := by
  simp only [calculateTimeRemaining, decide_eq_true_eq]
  omega

theorem calculateTimeRemaining_sub_congr (t₁ n₁ t₂ n₂ : Int) (tz : Option String)
    (h : t₁ - n₁ = t₂ - n₂) :
    calculateTimeRemaining t₁ n₁ tz = calculateTimeRemaining t₂ n₂ tz := by
  simp only [calculateTimeRemaining, h]

theorem formatCountdownCore_expired (r : TimeRemaining) (opts : CountdownOptions)
    (h : r.isExpired = true) :
    formatCountdownCore r opts = availableNowText opts.t opts.keys := by
  simp [formatCountdownCore, h]

theorem formatCountdownShortCore_expired (r : TimeRemaining)
    (opts : CountdownFormatOptions) (h : r.isExpired = true) :
    formatCountdownShortCore r opts = "0m" := by
  simp [formatCountdownShortCore, h]

theorem formatCountdownCompactCore_expired (r : TimeRemaining) (opts : CompactOptions)
    (h : r.isExpired = true) :
    formatCountdownCompactCore r opts = (if opts.showHours then "0:00:00" else "0:00") := by
  simp [formatCountdownCompactCore, h]

/-- C6: for an already-past target all three formatters branch on
`isExpired` first and return their sentinels: the translated-or-literal
`Available now` text, `"0m"`, and `"0:00:00"` or `"0:00"` according to
`showHours`. -/
theorem formatters_expired_sentinels (target now : Int) (vopts : CountdownOptions)
    (sopts : CountdownFormatOptions) (copts : CompactOptions) (h : target ≤ now) :
    formatCountdown target now vopts = availableNowText vopts.t vopts.keys ∧
    formatCountdownShort target now sopts = "0m" ∧
    (copts.showHours = true → formatCountdownCompact target now copts = "0:00:00") ∧
    (copts.showHours = false → formatCountdownCompact target now copts = "0:00") := by
  refine ⟨?_, ?_, ?_, ?_⟩
  · exact formatCountdownCore_expired _ _ (isExpired_of_le target now vopts.timezone h)
  · exact formatCountdownShortCore_expired _ _ (isExpired_of_le target now sopts.timezone h)
  · intro hs
    rw [formatCountdownCompact,
      formatCountdownCompactCore_expired _ _ (isExpired_of_le target now none h), hs]
    simp
  · intro hs
    rw [formatCountdownCompact,
      formatCountdownCompactCore_expired _ _ (isExpired_of_le target now none h), hs]
    simp

/-- Witness for `formatters_expired_sentinels`: the target instant `0` one
second before `now = 1000`, with all-default options. -/
theorem formatters_expired_sentinels_witness :
    (0 : Int) ≤ 1000 ∧
    formatCountdown 0 1000 {} = "Available now" ∧
    formatCountdownShort 0 1000 {} = "0m" ∧
    formatCountdownCompact 0 1000 {} = "0:00:00" := by
  have h := formatters_expired_sentinels 0 1000 {} {} {} (by decide)
  exact ⟨by decide, h.1, h.2.1, h.2.2.1 (by decide)⟩

/-- C7: the worked examples of the spec with all-default options, at an
arbitrary current instant `now`: a target 5 h 30 min 0 s ahead formats as
`"5 hours 30 minutes"`, `"5h 30m"` and `"05:30:00"`, and a target
4 min 10 s ahead (below the default 5-minute seconds threshold) short-formats
as `"4m 10s"`. -/
theorem formatters_spec_examples (now : Int) :
    formatCountdown (now + 19800000) now {} = "5 hours 30 minutes" ∧
    formatCountdownShort (now + 19800000) now {} = "5h 30m" ∧
    formatCountdownCompact (now + 19800000) now {} = "05:30:00" ∧
    formatCountdownShort (now + 250000) now {} = "4m 10s" := by
  have h1 : calculateTimeRemaining (now + 19800000) now none =
      calculateTimeRemaining 19800000 0 none :=
    calculateTimeRemaining_sub_congr _ _ _ _ none (by ring)
  have h2 : calculateTimeRemaining (now + 250000) now none =
      calculateTimeRemaining 250000 0 none :=
    calculateTimeRemaining_sub_congr _ _ _ _ none (by ring)
  refine ⟨?_, ?_, ?_, ?_⟩
  · show formatCountdownCore (calculateTimeRemaining (now + 19800000) now none) {} = _
    rw [h1]; decide
  · show formatCountdownShortCore (calculateTimeRemaining (now + 19800000) now none) {} = _
    rw [h1]; decide
  · show formatCountdownCompactCore (calculateTimeRemaining (now + 19800000) now none) {} = _
    rw [h1]; decide
  · show formatCountdownShortCore (calculateTimeRemaining (now + 250000) now none) {} = _
    rw [h2]; decide

/-- C3 (code bug evidence): with `showZeros = true` and a target 30 seconds
ahead (`hours = 0`, `minutes = 0`, `seconds = 30`), `formatCountdown`
produces only `"30 seconds"` — the zero-valued hours and minutes parts the
`showZeros` option promises are never pushed, because the inner
`if (x === 1) ... else if (x > 0)` ladders cannot emit a zero count. -/
theorem formatCountdown_showZeros_dead :
    formatCountdown 30000 0 { showZeros := true } = "30 seconds" := by
  decide

theorem updateCountdown_preserves (b : Bool) (s : CountdownTickState) (now : Int) :
    (updateCountdown b s now).currentTarget = s.currentTarget ∧
    (updateCountdown b s now).timezone = s.timezone := by
  cases h : s.currentTarget <;> simp [updateCountdown, h]

theorem updateCountdown_expireCalls_succ (s : CountdownTickState) (t now : Int)
    (hcur : s.currentTarget = some t) (hle : t ≤ now) :
    (updateCountdown true s now).expireCalls = s.expireCalls + 1 := by
  simp [updateCountdown, hcur, isExpired_of_le t now s.timezone hle]

theorem runTicks_expireCalls (t : Int) (times : List Int) :
    ∀ s : CountdownTickState, s.currentTarget = some t → (∀ x ∈ times, t ≤ x) →
      (runTicks true s times).expireCalls = s.expireCalls + times.length := by
  induction times with
  | nil => intro s _ _; simp [runTicks]
  | cons now rest ih =>
    intro s hcur hall
    have hs' : (updateCountdown true s now).currentTarget = some t := by
      rw [(updateCountdown_preserves true s now).1, hcur]
    have hrest : ∀ x ∈ rest, t ≤ x := fun x hx => hall x (List.mem_cons_of_mem _ hx)
    have hstep := updateCountdown_expireCalls_succ s t now hcur (hall now (List.mem_cons_self _ _))
    have := ih (updateCountdown true s now) hs' hrest
    simp only [runTicks, List.foldl_cons] at this ⊢
    rw [this, hstep, List.length_cons]
    omega

/-- C5: each tick recomputes the remaining duration from the current target
and publishes it, and when the new value is expired and an `onExpire`
callback is supplied the callback fires on that tick; the firing is not
latched, so over any run of ticks all at-or-after the target the callback
fires once per tick (`expireCalls` grows by the number of ticks, whatever it
already was). -/
theorem updateCountdown_fires_every_expired_tick (t : Int) (s : CountdownTickState)
    (times : List Int) (hcur : s.currentTarget = some t) (hall : ∀ x ∈ times, t ≤ x) :
    (∀ now : Int,
      (updateCountdown true s now).timeRemaining = calculateTimeRemaining t now s.timezone ∧
      (t ≤ now → (updateCountdown true s now).expireCalls = s.expireCalls + 1)) ∧
    (runTicks true s times).expireCalls = s.expireCalls + times.length := by
  refine ⟨fun now => ⟨?_, fun hle => updateCountdown_expireCalls_succ s t now hcur hle⟩, ?_⟩
  · simp [updateCountdown, hcur]
  · exact runTicks_expireCalls t times s hcur hall

/-- Witness for `updateCountdown_fires_every_expired_tick`: a state holding
the already-reached target `0` and two ticks at `1000` and `2000`; the
callback fires on both ticks. -/
theorem updateCountdown_fires_every_expired_tick_witness :
    (runTicks true
        { currentTarget := some 0, timezone := none,
          timeRemaining := nullTargetSentinel, expireCalls := 0 }
        [1000, 2000]).expireCalls = 0 + 2 :=
  (updateCountdown_fires_every_expired_tick 0
    { currentTarget := some 0, timezone := none,
      timeRemaining := nullTargetSentinel, expireCalls := 0 }
    [1000, 2000] rfl (by decide)).2

/-- C10: with a `null`/`undefined` target the hook publishes the fixed
zero/expired sentinel and returns `''` for all three formatted strings —
which are not the formatters' expired sentinels. -/
theorem useCountdown_null_target (now : Int) (opts : CountdownOptions) :
    useCountdownView none now opts =
      { timeRemaining := nullTargetSentinel, formatted := "", short := "", compact := "" } ∧
    nullTargetSentinel =
      { hours := 0, minutes := 0, seconds := 0, totalSeconds := 0, isExpired := true } ∧
    (useCountdownView none now opts).formatted ≠ "Available now" ∧
    (useCountdownView none now opts).short ≠ "0m" ∧
    (useCountdownView none now opts).compact ≠ "0:00:00" ∧
    (useCountdownView none now opts).compact ≠ "0:00" := by
  refine ⟨rfl, rfl, ?_, ?_, ?_, ?_⟩
  · show ("" : String) ≠ "Available now"; decide
  · show ("" : String) ≠ "0m"; decide
  · show ("" : String) ≠ "0:00:00"; decide
  · show ("" : String) ≠ "0:00"; decide

/-- C8 (counterexample): for an unparseable target date string
(`getTime()` is `NaN`) the computed result is degenerate but not an
expired/zero one: `isExpired` is `false` (JS `NaN <= 0` is `false`) and
`totalSeconds` is `NaN`, not `0`. -/
theorem calculateTimeRemainingJS_invalid_not_expired :
    (calculateTimeRemainingJS none 0).isExpired = false ∧
    (calculateTimeRemainingJS none 0).totalSeconds ≠ some 0 := by
  decide

/-- C8 (amended): for an unparseable target date string no error is raised —
the calculation totally evaluates to a value — but that value is the
degenerate all-`NaN` record with `isExpired = false`, not an expired/zero
result. -/
theorem calculateTimeRemainingJS_invalid (now : Int) :
    calculateTimeRemainingJS none now =
      { hours := none, minutes := none, seconds := none,
        totalSeconds := none, isExpired := false } :=
  rfl

-- Digit-string facts used by the compact-format shape proof.

theorem natDigitsAux_succ (fuel n : Nat) :
    natDigitsAux (fuel + 1) n =
      if n < 10 then [digitChar n]
      else natDigitsAux fuel (n / 10) ++ [digitChar (n % 10)] :=
  rfl

theorem digitChar_isDigit (d : Nat) (h : d < 10) : (digitChar d).isDigit = true := by
  interval_cases d <;> decide

theorem natDigitsAux_all_digit (fuel : Nat) :
    ∀ n, (natDigitsAux fuel n).all Char.isDigit = true := by
  induction fuel with
  | zero => intro n; rfl
  | succ f ih =>
    intro n
    rw [natDigitsAux_succ]
    by_cases h : n < 10
    · simp [h, digitChar_isDigit n h]
    · simp [h, List.all_append, ih (n / 10),
        digitChar_isDigit (n % 10) (Nat.mod_lt n (by omega))]

theorem natDigitsAux_ne_nil (fuel n : Nat) : natDigitsAux (fuel + 1) n ≠ [] := by
  rw [natDigitsAux_succ]
  split <;> simp

theorem natDigitsAux_small (fuel n : Nat) (hf : 0 < fuel) (hn : n < 10) :
    natDigitsAux fuel n = [digitChar n] := by
  cases fuel with
  | zero => omega
  | succ f => rw [natDigitsAux_succ, if_pos hn]

theorem natToStr_data (n : Nat) : (natToStr n).data = natDigitsAux (n + 1) n :=
  rfl

theorem natToStr_ne_nil (n : Nat) : (natToStr n).data ≠ [] :=
  natDigitsAux_ne_nil n n

theorem natToStr_all_digit (n : Nat) : (natToStr n).data.all Char.isDigit = true :=
  natDigitsAux_all_digit (n + 1) n

theorem natToStr_length_le_two (n : Nat) (h : n < 100) : (natToStr n).data.length ≤ 2 := by
  rw [natToStr_data, natDigitsAux_succ]
  by_cases h10 : n < 10
  · simp [h10]
  · rw [if_neg h10, natDigitsAux_small n (n / 10) (by omega) (by omega)]
    simp

theorem padStart_data (s : String) (n : Nat) (c : Char) :
    (padStart s n c).data =
      if n ≤ s.data.length then s.data
      else List.replicate (n - s.data.length) c ++ s.data := by
  unfold padStart
  split <;> rfl

theorem padStart_ne_nil (s : String) (n : Nat) (c : Char) (h : s.data ≠ []) :
    (padStart s n c).data ≠ [] := by
  rw [padStart_data]
  split
  · exact h
  · simp [h]

theorem padStart_all_digit (s : String) (n : Nat)
    (h : s.data.all Char.isDigit = true) :
    (padStart s n '0').data.all Char.isDigit = true := by
  rw [padStart_data]
  split
  · exact h
  · rw [List.all_append, h, Bool.and_true]
    rw [List.all_eq_true]
    intro x hx
    rw [List.eq_of_mem_replicate hx]
    decide

theorem padStart_two_length (s : String) (h1 : s.data ≠ []) (h2 : s.data.length ≤ 2) :
    (padStart s 2 '0').data.length = 2 := by
  have hpos : 0 < s.data.length := List.length_pos.mpr h1
  rw [padStart_data]
  split
  · omega
  · rw [List.length_append, List.length_replicate]
    omega

theorem colon_data : (":" : String).data = [':'] :=
  rfl

theorem data_append_colon (a b : String) :
    (a ++ ":" ++ b).data = a.data ++ ':' :: b.data := by
  simp [String.data_append, colon_data]

theorem calculateTimeRemaining_minutes_le (target now : Int) (tz : Option String) :
    (calculateTimeRemaining target now tz).minutes ≤ 59 := by
  simp only [calculateTimeRemaining]
  omega

theorem calculateTimeRemaining_seconds_le (target now : Int) (tz : Option String) :
    (calculateTimeRemaining target now tz).seconds ≤ 59 := by
  simp only [calculateTimeRemaining]
  omega

theorem data_append_colon₂ (a b c : String) :
    (a ++ ":" ++ b ++ ":" ++ c).data = a.data ++ ':' :: (b.data ++ ':' :: c.data) := by
  simp [String.data_append, colon_data]

/-- C4 (amended): for a non-expired target, whenever at least one of
`showHours`/`showSeconds` is on the compact output is in the language of
`^\d+:\d{2}(:\d{2})?$`; with `showHours` on the output is the padded
hours/minutes(/seconds) fields, and with `showHours` off the leading field
is the padded decimal of `hours * 60 + minutes` (hours folded into total
minutes) — with both options off that bare folded-minutes field, containing
no colon, is the whole output. -/
theorem formatCountdownCompact_shape (target now : Int) (opts : CompactOptions)
    (hne : (calculateTimeRemaining target now none).isExpired = false) :
    ((opts.showHours || opts.showSeconds) = true →
      matchesCompactRegex (formatCountdownCompact target now opts)) ∧
    (opts.showHours = true →
      formatCountdownCompact target now opts =
        if opts.showSeconds then
          padStart (natToStr (calculateTimeRemaining target now none).hours) 2 '0' ++ ":" ++
            padStart (natToStr (calculateTimeRemaining target now none).minutes) 2 '0' ++ ":" ++
            padStart (natToStr (calculateTimeRemaining target now none).seconds) 2 '0'
        else
          padStart (natToStr (calculateTimeRemaining target now none).hours) 2 '0' ++ ":" ++
            padStart (natToStr (calculateTimeRemaining target now none).minutes) 2 '0') ∧
    (opts.showHours = false →
      formatCountdownCompact target now opts =
        if opts.showSeconds then
          padStart (natToStr ((calculateTimeRemaining target now none).hours * 60 +
              (calculateTimeRemaining target now none).minutes)) 2 '0' ++ ":" ++
            padStart (natToStr (calculateTimeRemaining target now none).seconds) 2 '0'
        else
          padStart (natToStr ((calculateTimeRemaining target now none).hours * 60 +
              (calculateTimeRemaining target now none).minutes)) 2 '0') := by
  have hm2 : (padStart (natToStr (calculateTimeRemaining target now none).minutes) 2 '0').data.length = 2 :=
    padStart_two_length _ (natToStr_ne_nil _)
      (natToStr_length_le_two _ (by have := calculateTimeRemaining_minutes_le target now none; omega))
  have hmd : (padStart (natToStr (calculateTimeRemaining target now none).minutes) 2 '0').data.all Char.isDigit = true :=
    padStart_all_digit _ _ (natToStr_all_digit _)
  have hs2 : (padStart (natToStr (calculateTimeRemaining target now none).seconds) 2 '0').data.length = 2 :=
    padStart_two_length _ (natToStr_ne_nil _)
      (natToStr_length_le_two _ (by have := calculateTimeRemaining_seconds_le target now none; omega))
  have hsd : (padStart (natToStr (calculateTimeRemaining target now none).seconds) 2 '0').data.all Char.isDigit = true :=
    padStart_all_digit _ _ (natToStr_all_digit _)
  have hhne : (padStart (natToStr (calculateTimeRemaining target now none).hours) 2 '0').data ≠ [] :=
    padStart_ne_nil _ _ _ (natToStr_ne_nil _)
  have hhd : (padStart (natToStr (calculateTimeRemaining target now none).hours) 2 '0').data.all Char.isDigit = true :=
    padStart_all_digit _ _ (natToStr_all_digit _)
  have htmne : (padStart (natToStr ((calculateTimeRemaining target now none).hours * 60 +
      (calculateTimeRemaining target now none).minutes)) 2 '0').data ≠ [] :=
    padStart_ne_nil _ _ _ (natToStr_ne_nil _)
  have htmd : (padStart (natToStr ((calculateTimeRemaining target now none).hours * 60 +
      (calculateTimeRemaining target now none).minutes)) 2 '0').data.all Char.isDigit = true :=
    padStart_all_digit _ _ (natToStr_all_digit _)
  cases hsh : opts.showHours <;> cases hss : opts.showSeconds
  · have hout : formatCountdownCompact target now opts =
        padStart (natToStr ((calculateTimeRemaining target now none).hours * 60 +
          (calculateTimeRemaining target now none).minutes)) 2 '0' := by
      simp [formatCountdownCompact, formatCountdownCompactCore, hne, hsh, hss]
    exact ⟨by simp, by simp, fun _ => by simpa using hout⟩
  · have hout : formatCountdownCompact target now opts =
        padStart (natToStr ((calculateTimeRemaining target now none).hours * 60 +
            (calculateTimeRemaining target now none).minutes)) 2 '0' ++ ":" ++
          padStart (natToStr (calculateTimeRemaining target now none).seconds) 2 '0' := by
      simp [formatCountdownCompact, formatCountdownCompactCore, hne, hsh, hss]
    refine ⟨fun _ => ?_, by simp, fun _ => by simpa using hout⟩
    rw [hout]
    exact Or.inl ⟨_, _, data_append_colon _ _, htmne, htmd, hs2, hsd⟩
  · have hout : formatCountdownCompact target now opts =
        padStart (natToStr (calculateTimeRemaining target now none).hours) 2 '0' ++ ":" ++
          padStart (natToStr (calculateTimeRemaining target now none).minutes) 2 '0' := by
      simp [formatCountdownCompact, formatCountdownCompactCore, hne, hsh, hss]
    refine ⟨fun _ => ?_, fun _ => by simpa using hout, by simp⟩
    rw [hout]
    exact Or.inl ⟨_, _, data_append_colon _ _, hhne, hhd, hm2, hmd⟩
  · have hout : formatCountdownCompact target now opts =
        padStart (natToStr (calculateTimeRemaining target now none).hours) 2 '0' ++ ":" ++
          padStart (natToStr (calculateTimeRemaining target now none).minutes) 2 '0' ++ ":" ++
          padStart (natToStr (calculateTimeRemaining target now none).seconds) 2 '0' := by
      simp [formatCountdownCompact, formatCountdownCompactCore, hne, hsh, hss]
    refine ⟨fun _ => ?_, fun _ => by simpa using hout, by simp⟩
    rw [hout]
    exact Or.inr ⟨_, _, _, data_append_colon₂ _ _ _, hhne, hhd, hm2, hmd, hs2, hsd⟩

/-- Witness for `formatCountdownCompact_shape`: the 5 h 30 min target with
default options (`showHours = true`, `showSeconds = true`). -/
theorem formatCountdownCompact_shape_witness :
    (calculateTimeRemaining 19800000 0 none).isExpired = false ∧
    matchesCompactRegex (formatCountdownCompact 19800000 0 {}) :=
  ⟨by decide, (formatCountdownCompact_shape 19800000 0 {} (by decide)).1 (by decide)⟩

theorem colon_mem_of_matchesCompactRegex (s : String) (h : matchesCompactRegex s) :
    ':' ∈ s.data := by
  rcases h with ⟨a, b, hdata, -⟩ | ⟨a, b, c, hdata, -⟩ <;> rw [hdata] <;> simp

/-- C4 (counterexample): with `showHours = false` and `showSeconds = false`
and a non-expired target of 61 minutes, the compact output is the bare
minutes count `"61"`, which contains no colon and so is not in the language
of `^\d+:\d{2}(:\d{2})?$`. -/
theorem formatCountdownCompact_regex_counterexample :
    (calculateTimeRemaining 3660000 0 none).isExpired = false ∧
    ¬ matchesCompactRegex
      (formatCountdownCompact 3660000 0 { showHours := false, showSeconds := false }) := by
  refine ⟨by decide, fun h => ?_⟩
  have h61 : formatCountdownCompact 3660000 0 { showHours := false, showSeconds := false } =
      "61" := by decide
  rw [h61] at h
  have hmem := colon_mem_of_matchesCompactRegex _ h
  revert hmem
  decide

end Countdown
